import Mathlib

/-!
Shallow embedding of the datacentric temporal data source (Python reference
implementation) and proofs about its dataset-lookup, cutoff, write-path,
query-builder and key-serialization behaviour.

TemporalId (bson ObjectId) is modelled as Nat: the only operations the
embedded code performs on ObjectId values are total-order comparisons and
equality, which Nat supports with the same semantics.  The all-zero sentinel
ObjectId used for the root dataset is modelled as 0, which is minimal in
Nat exactly as the all-zero ObjectId is minimal among ObjectIds.

Database state (the DataSet collection and the DataSetDetail records) is
modelled as lookup functions inside DataSourceState; the memoization caches
of the Python class are semantically transparent because datasets are
immutable, so the cached and uncached lookups agree and are embedded as one
function.
-/

namespace DataCentric

/-- TemporalId modelled as Nat (total order and equality are all the code uses). -/
abbrev TemporalId := Nat

/-- DataSource._empty_id, the all-zero sentinel ObjectId of the root dataset. -/
def empty_id : TemporalId := 0

/-- A stored DataSet record: fields id_, key, data_set (the parent dataset in
which the record is stored) and imports, as used by the lookup-list builder
in temporal_mongo_data_source.py. -/
structure DataSetRecord where
  id_ : TemporalId
  key : String
  data_set : TemporalId
  imports : List TemporalId
  deriving Repr, DecidableEq

/-- A DataSetDetail record (data_set_detail.py): per-dataset read_only,
cutoff_time and imports_cutoff_time overrides; unset fields are none. -/
structure DataSetDetailRecord where
  read_only : Option Bool
  cutoff_time : Option TemporalId
  imports_cutoff_time : Option TemporalId
  deriving Repr, DecidableEq

/-- State of a TemporalMongoDataSource instance: the readonly flag and global
cutoff_time of the source, plus the stored DataSet records (data_sets id
models load_or_null(id, DataSet)) and the stored DataSetDetail records
(details id models the by-key DataSetDetail lookup for dataset id). -/
structure DataSourceState where
  data_source_name : String
  readonly : Option Bool
  cutoff_time : Option TemporalId
  data_sets : TemporalId → Option DataSetRecord
  details : TemporalId → Option DataSetDetailRecord

/-- get_data_set_detail_or_none: returns none for the root dataset, otherwise
the stored DataSetDetail record (the parent-dict plus by-key load of the
Python code, with its cache embedded as a direct lookup). -/
def get_data_set_detail_or_none (src : DataSourceState) (detail_for : TemporalId) :
    Option DataSetDetailRecord :=
  if detail_for = empty_id then none
  else src.details detail_for

/-- get_cutoff_time of temporal_mongo_data_source.py: combines the global
cutoff_time of the source with the cutoff_time of the DataSetDetail record,
following the exact if-structure of the source. -/
def get_cutoff_time (src : DataSourceState) (data_set_id : TemporalId) : Option TemporalId :=
  let data_set_detail := get_data_set_detail_or_none src data_set_id
  let data_set_cutoff_time : Option TemporalId :=
    match data_set_detail with
    | some d => d.cutoff_time
    | none => none
  match src.cutoff_time, data_set_cutoff_time with
  | some s, some d => if s < d then some s else some d
  | none, d => d
  | some s, none => some s

/-- Minimum of two optional cutoffs treating an unset value as plus infinity,
written from the words of the specification for comparison with the code. -/
def cutoff_min_spec : Option TemporalId → Option TemporalId → Option TemporalId
  | some a, some b => some (min a b)
  | some a, none => some a
  | none, some b => some b
  | none, none => none

/-- Claim C8: for every dataset D, the effective cutoff equals the minimum of
the data source cutoff_time and the cutoff_time in the DataSetDetail record
of D, where an unset value is treated as plus infinity: if both are set the
smaller is returned, if exactly one is set that one is returned, and if
neither is set there is no cutoff. -/
theorem get_cutoff_time_is_min (src : DataSourceState) (data_set_id : TemporalId) :
    get_cutoff_time src data_set_id =
      cutoff_min_spec src.cutoff_time
        (match get_data_set_detail_or_none src data_set_id with
         | some d => d.cutoff_time
         | none => none) := by
  unfold get_cutoff_time cutoff_min_spec
  rcases hd : get_data_set_detail_or_none src data_set_id with _ | d
  · cases src.cutoff_time <;> simp
  · rcases hc : d.cutoff_time with _ | c <;> rcases hs : src.cutoff_time with _ | s <;> simp_all
    rcases lt_or_ge s c with h | h
    · rw [if_pos h, min_eq_left h.le]
    · rw [if_neg (not_lt.mpr h), min_eq_right h]

/-- Adds an element to the accumulating lookup set, embedded as a duplicate
free list (Python set.add; the claims about the lookup list are membership
statements, for which the list order is irrelevant). -/
def add_to_set (result : List TemporalId) (x : TemporalId) : List TemporalId :=
  if x ∈ result then result else result ++ [x]

/-- Folds a cached import list into the accumulating set, one add per element
(the inner for loop over cached_import_list in _fill_data_set_lookup_set). -/
def union_into (result : List TemporalId) : List TemporalId → List TemporalId
  | [] => result
  | x :: xs => union_into (add_to_set result x) xs

/-- The cutoff test of _fill_data_set_lookup_set, as a Bool: true when a
cutoff is set and the record id is at or beyond it. -/
def cutoff_elides (cutoff_time : Option TemporalId) (id_ : TemporalId) : Bool :=
  match cutoff_time with
  | some c => decide (id_ ≥ c)
  | none => false

/-- The for loop over data_set_record.imports inside _fill_data_set_lookup_set:
rejects self import, skips ids already in the set, and otherwise adds
the import id and unions in its recursively built lookup list.  The recursive
call to get_data_set_lookup_list is passed in as the lookup argument. -/
def _fill_imports_with (lookup : TemporalId → Except String (List TemporalId))
    (data_set_record : DataSetRecord) :
    List TemporalId → List TemporalId → Except String (List TemporalId)
  | [], result => .ok result
  | data_set_id :: rest, result =>
    if data_set_record.id_ = data_set_id then
      .error ("Dataset " ++ data_set_record.key ++ " with ObjectId=" ++
        toString data_set_record.id_ ++ " includes itself in the list of its imports.")
    else if data_set_id ∈ result then
      _fill_imports_with lookup data_set_record rest result
    else
      match lookup data_set_id with
      | .error e => .error e
      | .ok cached_import_list =>
        _fill_imports_with lookup data_set_record rest
          (union_into (add_to_set result data_set_id) cached_import_list)

/-- _fill_data_set_lookup_set: validates the record, returns the unchanged
set when the record id is at or beyond the cutoff computed for the dataset
in which the record is stored, otherwise adds the record id and walks
the imports list.  The ObjectId.is_valid check of the source always succeeds on
an ObjectId instance and has no counterpart on Nat. -/
def _fill_data_set_lookup_set (src : DataSourceState)
    (lookup : TemporalId → Except String (List TemporalId))
    (data_set_record : DataSetRecord) (result : List TemporalId) :
    Except String (List TemporalId) :=
  if data_set_record.key = "" then .error "Required string value is not set."
  else
    if cutoff_elides (get_cutoff_time src data_set_record.data_set) data_set_record.id_ then
      .ok result
    else
      _fill_imports_with lookup data_set_record data_set_record.imports
        (add_to_set result data_set_record.id_)

/-- _build_data_set_lookup_list: starts from the empty set and fills it. -/
def _build_data_set_lookup_list (src : DataSourceState)
    (lookup : TemporalId → Except String (List TemporalId))
    (data_set_record : DataSetRecord) : Except String (List TemporalId) :=
  _fill_data_set_lookup_set src lookup data_set_record []

/-- load_or_null of temporal_mongo_data_source.py specialised to the DataSet
collection: a requested id at or beyond the source level cutoff_time yields
None before the collection is consulted, and a found record is discarded
when the requested id is at or beyond the cutoff computed for the dataset
the record is stored in.  The DeletedRecord and requested type checks of
the source concern deserialization of other record types; the data_sets
store holds DataSet records only, for which both checks pass. -/
def load_data_set_or_null (src : DataSourceState) (id_ : TemporalId) :
    Option DataSetRecord :=
  if cutoff_elides src.cutoff_time id_ then none
  else
    match src.data_sets id_ with
    | none => none
    | some result =>
      if cutoff_elides (get_cutoff_time src result.data_set) id_ then none
      else some result

/-- get_data_set_lookup_list of temporal_mongo_data_source.py: returns the
one element root list for the sentinel, otherwise loads the DataSet record
through load_or_null (with its cutoff checks), raises not found when that
load returns None, rejects records not stored in the root dataset, and
builds the lookup set.  The fuel argument bounds the recursion depth
through the import graph; exhaustion is reported as an error distinct from
every message of the source (in the source the recursion is bounded by the
finite, acyclic import graph held in the memoization caches). -/
def get_data_set_lookup_list (src : DataSourceState) :
    Nat → TemporalId → Except String (List TemporalId)
  | fuel, load_from =>
    if load_from = empty_id then .ok [empty_id]
    else
      match load_data_set_or_null src load_from with
      | none => .error ("Dataset with ObjectId=" ++ toString load_from ++ " is not found.")
      | some data_set_data =>
        if data_set_data.data_set ≠ empty_id then
          .error ("Dataset with ObjectId=" ++ toString load_from ++
            " is not stored in root dataset.")
        else
          match fuel with
          | 0 => .error "Model fuel exhausted."
          | fuel + 1 =>
            _build_data_set_lookup_list src
              (fun data_set_id => get_data_set_lookup_list src fuel data_set_id)
              data_set_data

/-- A serialized record document as stored in a collection: the _id, _dataset,
_key and _t fields consulted by the pipelines of the data source. -/
structure RecordDocument where
  id_ : TemporalId
  data_set : TemporalId
  key : String
  type_name : String
  deriving Repr, DecidableEq

/-- Name of the tombstone type (deleted_record.py). -/
def deleted_record_type_name : String := "DeletedRecord"

/-- Insertion of an element into a list sorted by the Bool relation le,
placing the element before the first entry it relates to. -/
def insert_by {α : Type} (le : α → α → Bool) (x : α) : List α → List α
  | [] => [x]
  | y :: ys => if le x y then x :: y :: ys else y :: insert_by le x ys

/-- Sorting by a Bool relation; models a MongoDB sort stage, whose output
order between documents unrelated either way by the sort key is
unspecified and which here is determined because every comparator used by
the embedded pipelines totally orders the documents it is applied to
(document _id fields are unique). -/
def sort_by_relation {α : Type} (le : α → α → Bool) : List α → List α
  | [] => []
  | x :: xs => insert_by le x (sort_by_relation le xs)

/-- apply_final_constraints of temporal_mongo_data_source.py, as the filter
semantics of the two appended match stages: keep documents whose _dataset is
in the lookup list, then, when a cutoff is set, keep documents with
_id at most the cutoff. -/
def apply_final_constraints (src : DataSourceState) (fuel : Nat)
    (docs : List RecordDocument) (load_from : TemporalId) :
    Except String (List RecordDocument) :=
  match get_data_set_lookup_list src fuel load_from with
  | .error e => .error e
  | .ok data_set_lookup_list =>
    let docs := docs.filter (fun d => decide (d.data_set ∈ data_set_lookup_list))
    match get_cutoff_time src load_from with
    | some cutoff_time => .ok (docs.filter (fun d => decide (d.id_ ≤ cutoff_time)))
    | none => .ok docs

/-- load_or_null_by_key of temporal_mongo_data_source.py, on the collection
coll: match _key, apply final constraints, then run the two consecutive sort
stages of the source, first on _dataset descending and then on _id
descending (a second MongoDB sort stage reorders the whole input, so the
second stage determines the final order), take the first document, and map a
tombstone to none.  The subtype test on the deserialized record is the
record_type_check argument; key_value models key_.value. -/
def load_or_null_by_key (src : DataSourceState) (fuel : Nat)
    (coll : List RecordDocument) (key_value : String) (load_from : TemporalId)
    (record_type_check : String → Bool) : Except String (Option RecordDocument) :=
  match apply_final_constraints src fuel
      (coll.filter (fun d => d.key = key_value)) load_from with
  | .error e => .error e
  | .ok pipe_with_constraints =>
    let sorted_by_data_set :=
      sort_by_relation (fun a b => decide (b.data_set ≤ a.data_set)) pipe_with_constraints
    let sorted_by_id :=
      sort_by_relation (fun a b => decide (b.id_ ≤ a.id_)) sorted_by_data_set
    match sorted_by_id.head? with
    | none => .ok none
    | some doc =>
      if doc.type_name = deleted_record_type_name then .ok none
      else if record_type_check doc.type_name then .ok (some doc)
      else .error ("Stored type " ++ doc.type_name ++ " for Key=" ++ key_value ++
        " in data_set=" ++ toString load_from ++
        " is not an instance of the requested type.")

/-- Lookup written from the words of the specification for comparison with
the code: a single sort whose primary ordering is by dataset descending and
whose secondary ordering is by record id descending, then the first
document, with the same filters and tombstone handling as the code. -/
def load_or_null_by_key_dataset_major (src : DataSourceState) (fuel : Nat)
    (coll : List RecordDocument) (key_value : String) (load_from : TemporalId)
    (record_type_check : String → Bool) : Except String (Option RecordDocument) :=
  match apply_final_constraints src fuel
      (coll.filter (fun d => d.key = key_value)) load_from with
  | .error e => .error e
  | .ok pipe_with_constraints =>
    let sorted :=
      sort_by_relation
        (fun a b => decide (b.data_set < a.data_set ∨
          (b.data_set = a.data_set ∧ b.id_ ≤ a.id_))) pipe_with_constraints
    match sorted.head? with
    | none => .ok none
    | some doc =>
      if doc.type_name = deleted_record_type_name then .ok none
      else if record_type_check doc.type_name then .ok (some doc)
      else .error ("Stored type " ++ doc.type_name ++ " for Key=" ++ key_value ++
        " in data_set=" ++ toString load_from ++
        " is not an instance of the requested type.")

/-- A concrete data source used to exercise the lookup order of
load_or_null_by_key: dataset 2 (stored in root) imports dataset 1. -/
def sample_source : DataSourceState :=
  { data_source_name := "sample"
    readonly := none
    cutoff_time := none
    data_sets := fun n =>
      if n = 2 then some { id_ := 2, key := "D2", data_set := 0, imports := [1] }
      else if n = 1 then some { id_ := 1, key := "D1", data_set := 0, imports := [] }
      else none
    details := fun _ => none }

/-- Collection with one key K revised in both datasets of sample_source: the
revision in dataset 2 has record id 10, the revision in imported dataset 1
has the larger record id 20 (saved later into the older dataset). -/
def sample_collection : List RecordDocument :=
  [ { id_ := 10, data_set := 2, key := "K", type_name := "BaseSample" },
    { id_ := 20, data_set := 1, key := "K", type_name := "BaseSample" } ]

/-- Claim C1: load_or_null_by_key is claimed to select by a sort whose
primary ordering is dataset descending and whose secondary ordering is
record id descending.  The code instead issues two consecutive sort stages,
and the second stage (id descending) determines the result, so the record
with the globally largest id wins even when it lives in a farther dataset:
from dataset 2 the code returns the record of imported dataset 1 with id 20,
while the dataset major order of the specification (and of the docstring of
the method itself) selects the record of dataset 2 with id 10. -/
theorem load_or_null_by_key_ignores_data_set_order :
    load_or_null_by_key sample_source 3 sample_collection "K" 2 (fun _ => true) =
      .ok (some { id_ := 20, data_set := 1, key := "K", type_name := "BaseSample" })
    ∧ load_or_null_by_key_dataset_major sample_source 3 sample_collection "K" 2
        (fun _ => true) =
      .ok (some { id_ := 10, data_set := 2, key := "K", type_name := "BaseSample" })
    ∧ ({ id_ := 20, data_set := 1, key := "K", type_name := "BaseSample" } : RecordDocument)
        ≠ { id_ := 10, data_set := 2, key := "K", type_name := "BaseSample" } :=
  ⟨rfl, rfl, by decide⟩

/-- A concrete data source with a global cutoff_time of 10: dataset 5 is
below the cutoff and imports dataset 20, which is at or beyond it. -/
def cutoff_sample_source : DataSourceState :=
  { data_source_name := "cutoff-sample"
    readonly := none
    cutoff_time := some 10
    data_sets := fun n =>
      if n = 5 then some { id_ := 5, key := "D", data_set := 0, imports := [20] }
      else if n = 20 then some { id_ := 20, key := "E", data_set := 0, imports := [] }
      else none
    details := fun _ => none }

/-- A concrete data source with no global cutoff where dataset 20 carries a
DataSetDetail record whose cutoff_time 10 lies at or below its own
TemporalId, while dataset 5 imports dataset 20. -/
def detail_cutoff_sample_source : DataSourceState :=
  { data_source_name := "detail-cutoff-sample"
    readonly := none
    cutoff_time := none
    data_sets := fun n =>
      if n = 5 then some { id_ := 5, key := "D", data_set := 0, imports := [20] }
      else if n = 20 then some { id_ := 20, key := "E", data_set := 0, imports := [] }
      else none
    details := fun n =>
      if n = 20 then
        some { read_only := none, cutoff_time := some 10, imports_cutoff_time := none }
      else none }

/-- Claim C2, counterexample: dataset 20 has TemporalId at or beyond the
effective cutoff 10 computed for it (its detail record sets cutoff_time 10),
yet its TemporalId appears both in the lookup list built for dataset 5 and
in its own lookup list.  The cutoff consulted by load_or_null and by the
lookup set builder is the one of the dataset in which the DataSet record is
stored (the root, whose effective cutoff is unset here), never the
effective cutoff of the dataset itself, so no elision takes place. -/
theorem elided_import_still_in_lookup_list :
    get_data_set_lookup_list detail_cutoff_sample_source 2 5 = .ok [5, 20]
    ∧ get_data_set_lookup_list detail_cutoff_sample_source 2 20 = .ok [20]
    ∧ get_cutoff_time detail_cutoff_sample_source 20 = some 10
    ∧ 10 ≤ (20 : TemporalId)
    ∧ (20 : TemporalId) ∈ [5, 20] :=
  ⟨rfl, rfl, rfl, by decide, by decide⟩

/-- Claim C2, amended: the lookup list builder never applies the effective
cutoff of the dataset itself, so with a detail level cutoff no elision
occurs at all (the counterexample); under a source level cutoff a dataset
at or beyond the cutoff indeed never appears in a built lookup list, but
not by silent elision: load_or_null returns None for any requested id at or
beyond the source cutoff, so get_data_set_lookup_list raises the not found
error, aborting the construction for that dataset and propagating to any
dataset importing it. -/
theorem beyond_source_cutoff_lookup_raises (src : DataSourceState) (fuel : Nat)
    (load_from : TemporalId) (c : TemporalId)
    (hc : src.cutoff_time = some c) (hge : c ≤ load_from)
    (hroot : load_from ≠ empty_id) :
    get_data_set_lookup_list src fuel load_from =
      .error ("Dataset with ObjectId=" ++ toString load_from ++ " is not found.") := by
  have hnone : load_data_set_or_null src load_from = none := by
    unfold load_data_set_or_null cutoff_elides
    rw [hc]
    simp [hge]
  unfold get_data_set_lookup_list
  rw [if_neg hroot, hnone]

/-- Witness for beyond_source_cutoff_lookup_raises: in cutoff_sample_source
(source level cutoff 10) requesting the lookup list of dataset 20 raises
the not found error, and building the lookup list of the importing dataset
5 propagates the same error instead of returning a list. -/
theorem beyond_source_cutoff_lookup_raises_sample :
    get_data_set_lookup_list cutoff_sample_source 2 20 =
      .error "Dataset with ObjectId=20 is not found."
    ∧ get_data_set_lookup_list cutoff_sample_source 2 5 =
      .error "Dataset with ObjectId=20 is not found." :=
  ⟨beyond_source_cutoff_lookup_raises cutoff_sample_source 2 20 10 rfl
      (by decide) (by decide),
    rfl⟩

/-- Claim C10: for the root dataset the lookup list is the one element list
holding the root id itself, for every data source state and fuel (hence
independently of the stored datasets, details, caches and database), and
the final constraints stage for the root dataset keeps only documents whose
dataset is the root dataset. -/
theorem root_lookup_list_is_singleton (src : DataSourceState) (fuel : Nat)
    (docs out : List RecordDocument) (d : RecordDocument) :
    get_data_set_lookup_list src fuel empty_id = .ok [empty_id]
    ∧ (apply_final_constraints src fuel docs empty_id = .ok out →
        d ∈ out → d.data_set = empty_id) := by
  have hroot : get_data_set_lookup_list src fuel empty_id = .ok [empty_id] := by
    unfold get_data_set_lookup_list
    rw [if_pos rfl]
  refine ⟨hroot, ?_⟩
  intro happ hmem
  unfold apply_final_constraints at happ
  rw [hroot] at happ
  rcases hc : get_cutoff_time src empty_id with _ | c <;> rw [hc] at happ <;>
    simp only [Except.ok.injEq] at happ <;> subst happ
  · rcases List.mem_filter.mp hmem with ⟨_, hd⟩
    simpa using of_decide_eq_true hd
  · rcases List.mem_filter.mp hmem with ⟨hmem2, _⟩
    rcases List.mem_filter.mp hmem2 with ⟨_, hd⟩
    simpa using of_decide_eq_true hd

/-- Witness for root_lookup_list_is_singleton: in sample_source, the final
constraints for the root dataset keep exactly the root owned document. -/
theorem root_lookup_list_is_singleton_sample :
    get_data_set_lookup_list sample_source 0 empty_id = .ok [empty_id]
    ∧ ({ id_ := 3, data_set := 0, key := "R", type_name := "T" } : RecordDocument).data_set
        = empty_id :=
  ⟨(root_lookup_list_is_singleton sample_source 0 [] []
      { id_ := 3, data_set := 0, key := "R", type_name := "T" }).1,
    (root_lookup_list_is_singleton sample_source 1
      [ { id_ := 3, data_set := 0, key := "R", type_name := "T" },
        { id_ := 10, data_set := 2, key := "K", type_name := "BaseSample" } ]
      [ { id_ := 3, data_set := 0, key := "R", type_name := "T" } ]
      { id_ := 3, data_set := 0, key := "R", type_name := "T" }).2 rfl (by decide)⟩

/-- The while loop of create_ordered_object_id in mongo_data_source.py.
gen models the native ObjectId() constructor, gen idx being the value
returned by the idx-th allocation; prev models __prev_object_id.  The loop
state is the current result, the retry_count and the index of the next
native allocation; the loop body increments retry_count and re-allocates
only when the incremented retry_count equals zero, exactly as the source
does.  Fuel bounds the iterations; none models a loop still running after
fuel iterations.  On exit the allocated id and next allocation index are
returned. -/
def ordered_id_loop (gen : Nat → TemporalId) (prev : TemporalId) :
    Nat → TemporalId → Nat → Nat → Option (TemporalId × Nat)
  | 0, result, _, idx =>
    if result ≤ prev then none else some (result, idx)
  | fuel + 1, result, retry_count, idx =>
    if result ≤ prev then
      if retry_count + 1 = 0 then
        ordered_id_loop gen prev fuel (gen idx) (retry_count + 1) (idx + 1)
      else
        ordered_id_loop gen prev fuel result (retry_count + 1) idx
    else some (result, idx)

/-- create_ordered_object_id of mongo_data_source.py: one native allocation,
then the retry loop with retry_count starting at zero. -/
def create_ordered_object_id (gen : Nat → TemporalId) (idx : Nat) (prev : TemporalId)
    (fuel : Nat) : Option (TemporalId × Nat) :=
  ordered_id_loop gen prev fuel (gen idx) 0 (idx + 1)

/-- A user record as handled by save_many: a payload identifying the record
plus the id_ and data_set fields assigned during the save. -/
structure UserRecord where
  payload : String
  id_ : TemporalId
  data_set : TemporalId
  deriving Repr, DecidableEq

/-- The OrderViolation message of save_many. -/
def order_violation_message (record_id save_to : TemporalId) : String :=
  "TemporalId=" ++ toString record_id ++ " of a record must be greater than " ++
    "TemporalId=" ++ toString save_to ++ " of the dataset where it is being saved."

/-- The for loop of save_many in temporal_mongo_data_source.py: allocate an
ordered id for each record in input order, raise when the allocated id is
not greater than the dataset id, otherwise assign id_ and data_set.
Returns the records as inserted together with the next native allocation
index and the final __prev_object_id; none models a non terminating
allocation. -/
def save_records_loop (gen : Nat → TemporalId) (fuel : Nat) (save_to : TemporalId) :
    List UserRecord → Nat → TemporalId →
    Option (Except String (List UserRecord × Nat × TemporalId))
  | [], idx, prev => some (.ok ([], idx, prev))
  | record :: rest, idx, prev =>
    match create_ordered_object_id gen idx prev fuel with
    | none => none
    | some (record_id, idx2) =>
      if record_id ≤ save_to then
        some (.error (order_violation_message record_id save_to))
      else
        match save_records_loop gen fuel save_to rest idx2 record_id with
        | none => none
        | some (.error e) => some (.error e)
        | some (.ok (rest2, idx3, prev3)) =>
          some (.ok ({ record with id_ := record_id, data_set := save_to } :: rest2,
            idx3, prev3))

/-- Truthiness of data_set_detail.read_only after the None check of the
source (a detail record whose read_only is unset counts as not read only). -/
def detail_read_only : Option DataSetDetailRecord → Bool
  | some d => d.read_only == some true
  | none => false

/-- The check data_set_detail is not None and data_set_detail.cutoff_time
is not None of _check_not_readonly. -/
def detail_cutoff_set : Option DataSetDetailRecord → Bool
  | some d => d.cutoff_time.isSome
  | none => false

/-- Message raised when the data source itself is read only. -/
def source_readonly_message (src : DataSourceState) : String :=
  "Attempting write operation for data source " ++ src.data_source_name ++
    " where ReadOnly flag is set."

/-- Message raised when the dataset detail carries the read_only flag. -/
def data_set_readonly_message (data_set_id : TemporalId) : String :=
  "Attempting write operation for dataset " ++ toString data_set_id ++
    " where ReadOnly flag is set."

/-- Message raised when the data source has cutoff_time set. -/
def source_cutoff_message (src : DataSourceState) : String :=
  "Attempting write operation for data source " ++ src.data_source_name ++
    " where CutoffTime is set. Historical view of the data cannot be written to."

/-- Message raised when the dataset detail has cutoff_time set. -/
def data_set_cutoff_message (data_set_id : TemporalId) : String :=
  "Attempting write operation for the dataset " ++ toString data_set_id ++
    " where CutoffTime is set. Historical view of the data cannot be written to."

/-- _check_not_readonly of temporal_mongo_data_source.py: the four guards in
source order, each with its own message. -/
def _check_not_readonly (src : DataSourceState) (data_set_id : TemporalId) :
    Except String Unit :=
  if src.readonly == some true then .error (source_readonly_message src)
  else if detail_read_only (get_data_set_detail_or_none src data_set_id) then
    .error (data_set_readonly_message data_set_id)
  else if src.cutoff_time.isSome then .error (source_cutoff_message src)
  else if detail_cutoff_set (get_data_set_detail_or_none src data_set_id) then
    .error (data_set_cutoff_message data_set_id)
  else .ok ()

/-- save_many of temporal_mongo_data_source.py: the readonly and cutoff gate
runs first; on success the record loop allocates and assigns ids and the
batch is inserted (the insert is modelled by returning the record list; the
non_temporal branch of the source inserts the same batch in both arms). -/
def save_many (src : DataSourceState) (gen : Nat → TemporalId) (fuel : Nat)
    (records : List UserRecord) (save_to : TemporalId) (idx : Nat) (prev : TemporalId) :
    Option (Except String (List UserRecord × Nat × TemporalId)) :=
  match _check_not_readonly src save_to with
  | .error e => some (.error e)
  | .ok _ => save_records_loop gen fuel save_to records idx prev

/-- delete of temporal_mongo_data_source.py: the same gate, then a
DeletedRecord document with a freshly allocated id is inserted in the
delete_in dataset (the insert is modelled by returning the document). -/
def delete (src : DataSourceState) (gen : Nat → TemporalId) (fuel : Nat)
    (key_value : String) (delete_in : TemporalId) (idx : Nat) (prev : TemporalId) :
    Option (Except String RecordDocument) :=
  match _check_not_readonly src delete_in with
  | .error e => some (.error e)
  | .ok _ =>
    match create_ordered_object_id gen idx prev fuel with
    | none => none
    | some (record_id, _) =>
      some (.ok (RecordDocument.mk record_id delete_in key_value deleted_record_type_name))

/-- In the retry loop the incremented retry_count is never zero, so the
re-allocation branch is unreachable and the loop result never changes: when
the current result is at most prev the loop exhausts any fuel. -/
theorem ordered_id_loop_stuck (gen : Nat → TemporalId) (prev result : TemporalId)
    (h : result ≤ prev) :
    ∀ fuel retry_count idx, ordered_id_loop gen prev fuel result retry_count idx = none := by
  intro fuel
  induction fuel with
  | zero =>
    intro retry_count idx
    unfold ordered_id_loop
    rw [if_pos h]
  | succ n ih =>
    intro retry_count idx
    unfold ordered_id_loop
    rw [if_pos h, if_neg (Nat.succ_ne_zero retry_count)]
    exact ih (retry_count + 1) idx

/-- Claim C3: every call to create_ordered_object_id is claimed to terminate
and, when the fresh native identifier is not greater than the previous
value, to retry with a fresh allocation until it obtains a strictly greater
one.  The source increments retry_count before comparing it to zero, so the
re-allocation branch is unreachable: with the previous id 5 and a native
generator returning 3, the loop never exits, for every iteration bound. -/
theorem create_ordered_object_id_never_retries :
    ∀ fuel, create_ordered_object_id (fun _ => 3) 0 5 fuel = none := fun fuel =>
  ordered_id_loop_stuck (fun _ => 3) 5 3 (by decide) fuel 0 1

/-- When the retry loop does exit, the returned id is strictly greater than
the previous id, whatever the loop state. -/
theorem ordered_id_loop_gt (gen : Nat → TemporalId) (prev : TemporalId) :
    ∀ fuel result retry_count idx r idx2,
      ordered_id_loop gen prev fuel result retry_count idx = some (r, idx2) →
      prev < r := by
  intro fuel
  induction fuel with
  | zero =>
    intro result retry_count idx r idx2 hloop
    unfold ordered_id_loop at hloop
    by_cases hle : result ≤ prev
    · rw [if_pos hle] at hloop
      exact absurd hloop (by simp)
    · rw [if_neg hle] at hloop
      simp only [Option.some.injEq, Prod.mk.injEq] at hloop
      rw [← hloop.1]
      exact not_le.mp hle
  | succ n ih =>
    intro result retry_count idx r idx2 hloop
    unfold ordered_id_loop at hloop
    by_cases hle : result ≤ prev
    · rw [if_pos hle, if_neg (Nat.succ_ne_zero retry_count)] at hloop
      exact ih result (retry_count + 1) idx r idx2 hloop
    · rw [if_neg hle] at hloop
      simp only [Option.some.injEq, Prod.mk.injEq] at hloop
      rw [← hloop.1]
      exact not_le.mp hle

/-- create_ordered_object_id returns an id strictly greater than prev
whenever it returns at all. -/
theorem create_ordered_object_id_gt (gen : Nat → TemporalId) (idx : Nat)
    (prev : TemporalId) (fuel : Nat) (r : TemporalId) (idx2 : Nat)
    (h : create_ordered_object_id gen idx prev fuel = some (r, idx2)) : prev < r :=
  ordered_id_loop_gt gen prev fuel (gen idx) 0 (idx + 1) r idx2 h

/-- Postconditions of the save_many record loop: every returned record got an
id above the target dataset and the dataset field set, and the assigned ids
form a strictly increasing chain continuing from the previous id, while the
payloads are kept in input order. -/
theorem save_records_loop_postcondition (gen : Nat → TemporalId) (fuel : Nat)
    (save_to : TemporalId) :
    ∀ records idx prev out idx2 prev2,
      save_records_loop gen fuel save_to records idx prev = some (.ok (out, idx2, prev2)) →
      (∀ r ∈ out, save_to < r.id_ ∧ r.data_set = save_to)
      ∧ List.Chain' (· < ·) (prev :: out.map (fun r => r.id_))
      ∧ out.map (fun r => r.payload) = records.map (fun r => r.payload) := by
  intro records
  induction records with
  | nil =>
    intro idx prev out idx2 prev2 h
    unfold save_records_loop at h
    simp only [Option.some.injEq, Except.ok.injEq, Prod.mk.injEq] at h
    rw [← h.1]
    simp
  | cons record rest ih =>
    intro idx prev out idx2 prev2 h
    unfold save_records_loop at h
    cases hc : create_ordered_object_id gen idx prev fuel with
    | none =>
      rw [hc] at h
      exact absurd h (by simp)
    | some p =>
      obtain ⟨record_id, idxn⟩ := p
      rw [hc] at h
      dsimp only at h
      by_cases hle : record_id ≤ save_to
      · rw [if_pos hle] at h
        exact absurd h (by simp)
      · rw [if_neg hle] at h
        cases hrec : save_records_loop gen fuel save_to rest idxn record_id with
        | none =>
          rw [hrec] at h
          exact absurd h (by simp)
        | some res =>
          rw [hrec] at h
          cases res with
          | error e => exact absurd h (by simp)
          | ok trip =>
            obtain ⟨rest2, idx3, prev3⟩ := trip
            simp only [Option.some.injEq, Except.ok.injEq, Prod.mk.injEq] at h
            obtain ⟨hout, _, _⟩ := h
            rw [← hout]
            have hprevlt : prev < record_id :=
              create_ordered_object_id_gt gen idx prev fuel record_id idxn hc
            obtain ⟨hmem, hchain, hpay⟩ := ih idxn record_id rest2 idx3 prev3 hrec
            refine ⟨?_, ?_, ?_⟩
            · intro r hr
              rcases List.mem_cons.mp hr with h1 | h1
              · rw [h1]
                exact ⟨not_le.mp hle, rfl⟩
              · exact hmem r h1
            · simp only [List.map_cons]
              exact List.chain'_cons.mpr ⟨hprevlt, hchain⟩
            · simp only [List.map_cons, hpay]

/-- Claim C4: when save_many succeeds, every saved record has an id strictly
greater than the target dataset id and its dataset field equal to the
target, the assigned ids are strictly increasing in input order, and the
records come back in input order; and when an allocated id is not greater
than the target dataset id the loop raises the OrderViolation message
instead. -/
theorem save_many_assigns_increasing_ids :
    (∀ src gen fuel records save_to idx prev out idx2 prev2,
      save_many src gen fuel records save_to idx prev = some (.ok (out, idx2, prev2)) →
      (∀ r ∈ out, save_to < r.id_ ∧ r.data_set = save_to)
      ∧ List.Chain' (· < ·) (out.map (fun r => r.id_))
      ∧ out.map (fun r => r.payload) = records.map (fun r => r.payload))
    ∧ (∀ gen fuel save_to record rest idx prev record_id idx2,
      create_ordered_object_id gen idx prev fuel = some (record_id, idx2) →
      record_id ≤ save_to →
      save_records_loop gen fuel save_to (record :: rest) idx prev =
        some (.error (order_violation_message record_id save_to))) := by
  constructor
  · intro src gen fuel records save_to idx prev out idx2 prev2 h
    unfold save_many at h
    cases hchk : _check_not_readonly src save_to with
    | error e =>
      rw [hchk] at h
      exact absurd h (by simp)
    | ok u =>
      rw [hchk] at h
      obtain ⟨hmem, hchain, hpay⟩ :=
        save_records_loop_postcondition gen fuel save_to records idx prev out idx2 prev2 h
      exact ⟨hmem, hchain.tail, hpay⟩
  · intro gen fuel save_to record rest idx prev record_id idx2 hc hle
    unfold save_records_loop
    rw [hc]
    dsimp only
    rw [if_pos hle]

/-- Witness for save_many_assigns_increasing_ids: a concrete successful save
of two records into dataset 50 with increasing ids 100 and 101, and a
concrete rejected allocation at id 40. -/
theorem save_many_assigns_increasing_ids_sample :
    ((∀ r ∈ ([{ payload := "a", id_ := 100, data_set := 50 },
        { payload := "b", id_ := 101, data_set := 50 }] : List UserRecord),
      (50 : TemporalId) < r.id_ ∧ r.data_set = 50)
    ∧ List.Chain' (· < ·)
        (([{ payload := "a", id_ := 100, data_set := 50 },
          { payload := "b", id_ := 101, data_set := 50 }] : List UserRecord).map
            (fun r => r.id_))
    ∧ ([{ payload := "a", id_ := 100, data_set := 50 },
        { payload := "b", id_ := 101, data_set := 50 }] : List UserRecord).map
          (fun r => r.payload)
        = ([{ payload := "a", id_ := 0, data_set := 0 },
          { payload := "b", id_ := 0, data_set := 0 }] : List UserRecord).map
            (fun r => r.payload))
    ∧ save_records_loop (fun n => 40 + n) 1 50
        [{ payload := "c", id_ := 0, data_set := 0 }] 0 30 =
      some (.error (order_violation_message 40 50)) :=
  ⟨save_many_assigns_increasing_ids.1
      { data_source_name := "plain", readonly := none, cutoff_time := none,
        data_sets := fun _ => none, details := fun _ => none }
      (fun n => 100 + n) 1
      [{ payload := "a", id_ := 0, data_set := 0 },
        { payload := "b", id_ := 0, data_set := 0 }] 50 0 60
      [{ payload := "a", id_ := 100, data_set := 50 },
        { payload := "b", id_ := 101, data_set := 50 }] 2 101 rfl,
    save_many_assigns_increasing_ids.2 (fun n => 40 + n) 1 50
      { payload := "c", id_ := 0, data_set := 0 } [] 0 30 40 1 rfl (by decide)⟩

/-- Two three-part strings with the same middle part differ when the
combined lengths of their outer constant parts differ. -/
theorem append3_ne_of_length {p1 p2 v s1 s2 : String}
    (hlen : p1.length + s1.length ≠ p2.length + s2.length) :
    p1 ++ v ++ s1 ≠ p2 ++ v ++ s2 := by
  intro h
  have hl := congrArg String.length h
  rw [String.length_append, String.length_append, String.length_append,
    String.length_append] at hl
  omega

/-- Two three-part strings differ when their constant prefixes disagree at a
character position inside both prefixes. -/
theorem append3_ne_of_char {p1 p2 v1 v2 s1 s2 : String} (n : Nat) (c1 c2 : Char)
    (h1 : p1.data[n]? = some c1) (h2 : p2.data[n]? = some c2) (hne : c1 ≠ c2)
    (hn1 : n < p1.data.length) (hn2 : n < p2.data.length) :
    p1 ++ v1 ++ s1 ≠ p2 ++ v2 ++ s2 := by
  intro h
  have hd := congrArg String.data h
  rw [String.data_append, String.data_append, String.data_append,
    String.data_append] at hd
  have e1 : ((p1.data ++ v1.data) ++ s1.data)[n]? = some c1 := by
    rw [List.getElem?_append_left (by rw [List.length_append]; omega),
      List.getElem?_append_left hn1]
    exact h1
  have e2 : ((p2.data ++ v2.data) ++ s2.data)[n]? = some c2 := by
    rw [List.getElem?_append_left (by rw [List.length_append]; omega),
      List.getElem?_append_left hn2]
    exact h2
  rw [hd, e2] at e1
  exact hne (Option.some.inj e1).symm

/-- Claim C5: a write operation (save_many or delete targeting dataset D)
is rejected if and only if the data source is marked readonly, the detail
of D carries read_only, the data source has cutoff_time set, or the detail
of D has cutoff_time set; each of the four guards raises its own message,
the four messages are pairwise distinct, and when the gate raises neither
save_many nor delete performs its insert (both return the gate error). -/
theorem write_rejection_matrix :
    (∀ src ds, (∃ e, _check_not_readonly src ds = .error e) ↔
      ((src.readonly == some true) = true
      ∨ detail_read_only (get_data_set_detail_or_none src ds) = true
      ∨ src.cutoff_time.isSome = true
      ∨ detail_cutoff_set (get_data_set_detail_or_none src ds) = true))
    ∧ (∀ src ds,
        _check_not_readonly src ds = .ok ()
        ∨ _check_not_readonly src ds = .error (source_readonly_message src)
        ∨ _check_not_readonly src ds = .error (data_set_readonly_message ds)
        ∨ _check_not_readonly src ds = .error (source_cutoff_message src)
        ∨ _check_not_readonly src ds = .error (data_set_cutoff_message ds))
    ∧ (∀ src ds, source_readonly_message src ≠ data_set_readonly_message ds
        ∧ source_readonly_message src ≠ source_cutoff_message src
        ∧ source_readonly_message src ≠ data_set_cutoff_message ds
        ∧ data_set_readonly_message ds ≠ source_cutoff_message src
        ∧ data_set_readonly_message ds ≠ data_set_cutoff_message ds
        ∧ source_cutoff_message src ≠ data_set_cutoff_message ds)
    ∧ (∀ src ds e gen fuel records idx prev,
        _check_not_readonly src ds = .error e →
        save_many src gen fuel records ds idx prev = some (.error e))
    ∧ (∀ src ds e gen fuel key_value idx prev,
        _check_not_readonly src ds = .error e →
        delete src gen fuel key_value ds idx prev = some (.error e)) := by
  refine ⟨?_, ?_, ?_, ?_, ?_⟩
  · intro src ds
    constructor
    · rintro ⟨e, he⟩
      unfold _check_not_readonly at he
      split_ifs at he with h1 h2 h3 h4
      · exact Or.inl h1
      · exact Or.inr (Or.inl h2)
      · exact Or.inr (Or.inr (Or.inl h3))
      · exact Or.inr (Or.inr (Or.inr h4))
    · intro hcond
      unfold _check_not_readonly
      split_ifs with h1 h2 h3 h4
      · exact ⟨source_readonly_message src, rfl⟩
      · exact ⟨data_set_readonly_message ds, rfl⟩
      · exact ⟨source_cutoff_message src, rfl⟩
      · exact ⟨data_set_cutoff_message ds, rfl⟩
      · rcases hcond with h | h | h | h
        · exact absurd h h1
        · exact absurd h h2
        · exact absurd h h3
        · exact absurd h h4
  · intro src ds
    unfold _check_not_readonly
    split_ifs
    · exact Or.inr (Or.inl rfl)
    · exact Or.inr (Or.inr (Or.inl rfl))
    · exact Or.inr (Or.inr (Or.inr (Or.inl rfl)))
    · exact Or.inr (Or.inr (Or.inr (Or.inr rfl)))
    · exact Or.inl rfl
  · intro src ds
    unfold source_readonly_message data_set_readonly_message
      source_cutoff_message data_set_cutoff_message
    refine ⟨?_, ?_, ?_, ?_, ?_, ?_⟩
    · exact append3_ne_of_char 35 ' ' 's'
        (by decide) (by decide) (by decide) (by decide) (by decide)
    · exact append3_ne_of_length (by decide)
    · exact append3_ne_of_char 31 'd' 't'
        (by decide) (by decide) (by decide) (by decide) (by decide)
    · exact append3_ne_of_char 35 's' ' '
        (by decide) (by decide) (by decide) (by decide) (by decide)
    · exact append3_ne_of_length (by decide)
    · exact append3_ne_of_char 31 'd' 't'
        (by decide) (by decide) (by decide) (by decide) (by decide)
  · intro src ds e gen fuel records idx prev h
    unfold save_many
    rw [h]
  · intro src ds e gen fuel key_value idx prev h
    unfold delete
    rw [h]

/-- A data source marked readonly, used as the concrete witness input of the
write rejection gate. -/
def readonly_sample_source : DataSourceState :=
  { data_source_name := "ro"
    readonly := some true
    cutoff_time := none
    data_sets := fun _ => none
    details := fun _ => none }

/-- Witness for write_rejection_matrix: on a source marked readonly the gate
raises and save_many returns the gate error without inserting. -/
theorem write_rejection_matrix_sample :
    (∃ e, _check_not_readonly readonly_sample_source 7 = .error e)
    ∧ save_many readonly_sample_source (fun n => 100 + n) 1 [] 7 0 0 =
        some (.error (source_readonly_message readonly_sample_source)) :=
  ⟨(write_rejection_matrix.1 readonly_sample_source 7).mpr (Or.inl (by decide)),
    (write_rejection_matrix.2.2.2.1 readonly_sample_source 7
      (source_readonly_message readonly_sample_source)
      (fun n => 100 + n) 1 [] 0 0 rfl)⟩

/-- Declared types of key token fields, the annotations consulted by
__populate_from_string in key.py.  The model covers string, bool, int, enum
and embedded key elements; date, time, datetime, minute and ObjectId
elements reach the same token grammar through the integer and hexadecimal
encodings of date_ext and bson, and float elements are rejected by the
source before any token is produced. -/
inductive KeyElementType where
  | string_element : KeyElementType
  | bool_element : KeyElementType
  | int_element : KeyElementType
  | enum_element (members : List String) : KeyElementType
  | key_element (element_types : List KeyElementType) : KeyElementType

/-- Values of key token fields (the attribute values of a key object). -/
inductive KeyElementValue where
  | string_value (s : String) : KeyElementValue
  | bool_value (b : Bool) : KeyElementValue
  | int_value (i : Int) : KeyElementValue
  | enum_value (member : String) : KeyElementValue
  | key_value (elements : List KeyElementValue) : KeyElementValue

mutual

/-- get_key_token of key.py, dispatching on the runtime type of the
attribute value exactly as the source does: strings must be non empty and
free of the semicolon delimiter, bools serialize as true or false, ints by
decimal text, enums by member name, and an embedded key by its full value
string (str of the key). -/
def get_key_token : KeyElementValue → Except String String
  | .string_value s =>
    if s = "" then
      .error "String key element is empty. Empty elements are not permitted in key."
    else if s.data.contains ';' then
      .error "Key element includes semicolon delimiter. The use of this delimiter is reserved for separating key tokens."
    else .ok s
  | .bool_value b => .ok (if b then "true" else "false")
  | .int_value i => .ok (toString i)
  | .enum_value member => .ok member
  | .key_value elements =>
    match key_tokens elements with
    | .error e => .error e
    | .ok tokens => .ok (String.intercalate ";" tokens)

/-- The token list of a key: get_key_token of each element in declaration
order (the loop inside the Key.value property). -/
def key_tokens : List KeyElementValue → Except String (List String)
  | [] => .ok []
  | v :: vs =>
    match get_key_token v with
    | .error e => .error e
    | .ok token =>
      match key_tokens vs with
      | .error e => .error e
      | .ok tokens => .ok (token :: tokens)

end

/-- Key.value of key.py: the key tokens joined by semicolons. -/
def key_value_string (elements : List KeyElementValue) : Except String String :=
  match key_tokens elements with
  | .error e => .error e
  | .ok tokens => .ok (String.intercalate ";" tokens)

/-- Python str.capitalize as applied by the bool branch of
__populate_from_string; it agrees with Lean String.capitalize on emptiness,
which is the only property the subsequent bool() conversion inspects. -/
def py_capitalize (s : String) : String := s.capitalize

/-- Python bool() on a string: true exactly when the string is non empty. -/
def py_bool (s : String) : Bool := !s.isEmpty

/-- The decimal value of a digit character, none for a non digit. -/
def char_digit (c : Char) : Option Nat :=
  if 48 ≤ c.toNat ∧ c.toNat ≤ 57 then some (c.toNat - 48) else none

/-- Accumulating decimal parser over the characters of a token. -/
def parse_digits_acc : List Char → Nat → Option Nat
  | [], acc => some acc
  | c :: cs, acc =>
    match char_digit c with
    | some d => parse_digits_acc cs (acc * 10 + d)
    | none => none

/-- Python int() on a token: the parsed decimal integer with an optional
leading minus sign, or an error for a non numeric token.  (Implemented over
the character list because the toInt? of the library does not reduce in the
kernel.) -/
def py_int (token : String) : Except String Int :=
  match token.data with
  | [] => .error ("invalid literal for int() with base 10: " ++ token)
  | '-' :: rest =>
    match rest, parse_digits_acc rest 0 with
    | _ :: _, some n => .ok (-(n : Int))
    | _, _ => .error ("invalid literal for int() with base 10: " ++ token)
  | cs =>
    match parse_digits_acc cs 0 with
    | some n => .ok ((n : Int))
    | none => .error ("invalid literal for int() with base 10: " ++ token)

mutual

/-- One slot of __populate_from_string in key.py.  An embedded key element
runs the recursive __populate_from_string on the remaining tokens (the
singleton and token count checks of that method are inlined here); scalar
elements read one token, reject the empty token, and convert: a string
token is taken raw, a bool token is converted by bool(token.capitalize())
exactly as in the source, an int token by int(token), and an enum token by
member lookup.  Returns the parsed value and the next token index. -/
def populate_element : KeyElementType → List String → Nat → Except String (KeyElementValue × Nat)
  | .key_element element_types, tokens, token_index =>
    if element_types.isEmpty then
      if tokens.length ≠ 1 ∨ tokens.headD "" ≠ "" then
        .error "Singleton key must be an empty string. Singleton key is a key that has no key elements."
      else .ok (.key_value [], 1)
    else if tokens.length - token_index < element_types.length then
      .error "Key requires more key elements than the remaining key tokens."
    else
      match populate_slots element_types tokens token_index with
      | .error e => .error e
      | .ok (elements, token_index2) => .ok (.key_value elements, token_index2)
  | .string_element, tokens, token_index =>
    let token := tokens.getD token_index ""
    if token = "" then .error "Key contains an empty token."
    else .ok (.string_value token, token_index + 1)
  | .bool_element, tokens, token_index =>
    let token := tokens.getD token_index ""
    if token = "" then .error "Key contains an empty token."
    else .ok (.bool_value (py_bool (py_capitalize token)), token_index + 1)
  | .int_element, tokens, token_index =>
    let token := tokens.getD token_index ""
    if token = "" then .error "Key contains an empty token."
    else
      match py_int token with
      | .error e => .error e
      | .ok i => .ok (.int_value i, token_index + 1)
  | .enum_element members, tokens, token_index =>
    let token := tokens.getD token_index ""
    if token = "" then .error "Key contains an empty token."
    else if token ∈ members then .ok (.enum_value token, token_index + 1)
    else .error ("KeyError: " ++ token)

/-- The for loop over the slots of __populate_from_string: populate each
element in declaration order, threading the token index. -/
def populate_slots : List KeyElementType → List String → Nat → Except String (List KeyElementValue × Nat)
  | [], _, token_index => .ok ([], token_index)
  | t :: rest, tokens, token_index =>
    match populate_element t tokens token_index with
    | .error e => .error e
    | .ok (v, token_index2) =>
      match populate_slots rest tokens token_index2 with
      | .error e => .error e
      | .ok (vs, token_index3) => .ok (v :: vs, token_index3)

end

/-- __populate_from_string of key.py on a token array: the singleton and
token count guards followed by the slot loop. -/
def populate_key_from_tokens (slots : List KeyElementType) (tokens : List String)
    (token_index : Nat) : Except String (List KeyElementValue × Nat) :=
  if slots.isEmpty then
    if tokens.length ≠ 1 ∨ tokens.headD "" ≠ "" then
      .error "Singleton key must be an empty string. Singleton key is a key that has no key elements."
    else .ok ([], 1)
  else if tokens.length - token_index < slots.length then
    .error "Key requires more key elements than the remaining key tokens."
  else populate_slots slots tokens token_index

/-- Python str.split on a single character separator, over the character
list (the splitOn of the library does not reduce in the kernel; this
function implements the same splitting). -/
def split_chars (sep : Char) : List Char → List (List Char)
  | [] => [[]]
  | c :: cs =>
    match split_chars sep cs with
    | [] => [[]]
    | t :: ts => if c = sep then [] :: t :: ts else (c :: t) :: ts

/-- value.split of Python on one separator character. -/
def py_split (s : String) (sep : Char) : List String :=
  (split_chars sep s.data).map (fun cs => String.mk cs)

/-- populate_from_string of key.py: split the value on semicolons, populate
from token index zero, and require that every token was consumed. -/
def populate_from_string (slots : List KeyElementType) (value : String) :
    Except String (List KeyElementValue) :=
  let tokens := py_split value ';'
  match populate_key_from_tokens slots tokens 0 with
  | .error e => .error e
  | .ok (elements, token_index) =>
    if tokens.length ≠ token_index then
      .error ("Key requires " ++ toString token_index ++ " tokens including " ++
        "any composite key elements, while key value " ++ value ++ " contains " ++
        toString tokens.length ++ " tokens.")
    else .ok elements

/-- Claim C6: the key string round trip is claimed to hold for every
supported token field type including bool.  It fails for a key whose only
field is the bool False: its value string is "false", but
__populate_from_string converts the token with bool(token.capitalize()),
and bool() of the non empty string "False" is True, so the parsed key holds
True, not False. -/
theorem bool_key_round_trip_fails :
    key_value_string [.bool_value false] = .ok "false"
    ∧ populate_from_string [.bool_element] "false" = .ok [.bool_value true]
    ∧ ([KeyElementValue.bool_value true] ≠ [KeyElementValue.bool_value false]) :=
  ⟨rfl, rfl, by simp⟩

/-- Phase 3 of as_iterable in temporal_mongo_query.py (the materialization
block): fetch the documents whose _id is in record_ids, index them by id in
record_dict (collection ids are unique, so the first match is the dict
entry), and emit one document per id of batch_ids_list in that order,
skipping ids without an entry in record_dict.  The block contains no
tombstone check. -/
def materialize_batch (coll : List RecordDocument) (record_ids : List TemporalId)
    (batch_ids_list : List TemporalId) : List RecordDocument :=
  let record_dict := coll.filter (fun d => decide (d.id_ ∈ record_ids))
  batch_ids_list.filterMap (fun batch_id => record_dict.find? (fun d => d.id_ == batch_id))

/-- A concrete tombstone document used by the materialization counterexample. -/
def deleted_sample_doc : RecordDocument :=
  { id_ := 7, data_set := 1, key := "K", type_name := deleted_record_type_name }

/-- Claim C7, counterexample: a DeletedRecord document whose id was selected
into record_ids is fetched and emitted by the materialization phase, so
as_iterable can yield a DeletedRecord. -/
theorem materialize_batch_yields_deleted_record :
    materialize_batch [deleted_sample_doc] [7] [7] = [deleted_sample_doc]
    ∧ deleted_sample_doc.type_name = deleted_record_type_name :=
  ⟨rfl, rfl⟩

/-- Claim C7, amended: the materialization phase emits in the order of the
Phase 1 id list, skipping exactly the ids for which no fetched document
exists (id not selected into record_ids or absent from the collection), and
every emitted document comes from the collection with its id in record_ids;
no DeletedRecord filtering occurs, as the counterexample shows. -/
theorem materialize_batch_emits_in_batch_order (coll : List RecordDocument)
    (record_ids batch_ids_list : List TemporalId) :
    ((materialize_batch coll record_ids batch_ids_list).map (fun d => d.id_) =
      batch_ids_list.filter
        (fun i => (coll.filter (fun d => decide (d.id_ ∈ record_ids))).any
          (fun d => d.id_ == i)))
    ∧ (∀ d ∈ materialize_batch coll record_ids batch_ids_list,
        d ∈ coll ∧ d.id_ ∈ record_ids) := by
  constructor
  · show (List.filterMap _ batch_ids_list).map _ = _
    induction batch_ids_list with
    | nil => rfl
    | cons i rest ih =>
      rw [List.filterMap_cons, List.filter_cons]
      cases hf : (coll.filter (fun d => decide (d.id_ ∈ record_ids))).find?
          (fun d => d.id_ == i) with
      | none =>
        have hany : ((coll.filter (fun d => decide (d.id_ ∈ record_ids))).any
            (fun d => d.id_ == i)) = false := by
          rw [List.any_eq_false]
          intro d hd
          have := List.find?_eq_none.mp hf d hd
          simpa using this
        rw [hany]
        simpa using ih
      | some d =>
        have hp := List.find?_some hf
        have hmem : d ∈ coll.filter (fun x => decide (x.id_ ∈ record_ids)) :=
          List.mem_of_find?_eq_some hf
        have hany : ((coll.filter (fun d => decide (d.id_ ∈ record_ids))).any
            (fun d => d.id_ == i)) = true :=
          List.any_eq_true.mpr ⟨d, hmem, hp⟩
        rw [hany]
        simp only [List.map_cons, ih]
        rw [show d.id_ = i from by simpa using hp]
        simp
  · intro d hd
    unfold materialize_batch at hd
    rcases List.mem_filterMap.mp hd with ⟨i, _, hfind⟩
    have hmem : d ∈ coll.filter (fun x => decide (x.id_ ∈ record_ids)) :=
      List.mem_of_find?_eq_some hfind
    rcases List.mem_filter.mp hmem with ⟨hcoll, hin⟩
    exact ⟨hcoll, of_decide_eq_true hin⟩

/-- A concrete live document used by the materialization witness. -/
def base_sample_doc : RecordDocument :=
  { id_ := 7, data_set := 1, key := "K", type_name := "BaseSample" }

/-- Witness for materialize_batch_emits_in_batch_order: the emitted document
of a concrete one document batch is in the collection with its id selected. -/
theorem materialize_batch_emits_in_batch_order_sample :
    base_sample_doc ∈ [base_sample_doc]
    ∧ base_sample_doc.id_ ∈ [(7 : TemporalId)] :=
  (materialize_batch_emits_in_batch_order [base_sample_doc] [7] [7]).2
    base_sample_doc (by decide)

/-- A pipeline stage of the query builder in temporal_mongo_query.py: a
match stage holding pascal cased predicate pairs, or a sort stage holding
the ordered field dictionary mapping field name to direction. -/
inductive QueryStage where
  | match_stage (predicate : List (String × String)) : QueryStage
  | sort_stage (fields : List (String × Int)) : QueryStage
  deriving Repr, DecidableEq

/-- __has_sort of the query builder. -/
def has_sort (pipeline : List QueryStage) : Bool :=
  pipeline.any (fun stage =>
    match stage with
    | .sort_stage _ => true
    | .match_stage _ => false)

/-- Python dict assignment d[k] = v: update in place when the key exists
(keeping its position), append otherwise. -/
def dict_set (fields : List (String × Int)) (k : String) (v : Int) :
    List (String × Int) :=
  if fields.any (fun p => p.1 == k) then
    fields.map (fun p => if p.1 == k then (k, v) else p)
  else fields ++ [(k, v)]

/-- The sorts[attr] = direction assignment of sort_by, performed through the
dict reference of the first sort stage found by next(...): the stage dict is
shared between the receiver pipeline and its shallow copy, so the mutation
is visible through both. -/
def add_to_first_sort : List QueryStage → String → Int → List QueryStage
  | [], _, _ => []
  | .sort_stage fields :: rest, k, v => .sort_stage (dict_set fields k v) :: rest
  | stage :: rest, k, v => stage :: add_to_first_sort rest k v

/-- The field dictionary of the first sort stage of a pipeline. -/
def first_sort_fields : List QueryStage → Option (List (String × Int))
  | [] => none
  | .sort_stage fields :: _ => some fields
  | _ :: rest => first_sort_fields rest

/-- sort_by of temporal_mongo_query.py.  The result pairs the pipeline of
the returned query with the pipeline of the receiver after the call: the
source copies the stage list shallowly, so when a sort stage already exists
the assignment into the shared stage dict is visible through the receiver as
well, while appending a new sort stage extends only the copy. -/
def sort_by (pascal : String → String) (pipeline : List QueryStage) (attr : String) :
    List QueryStage × List QueryStage :=
  if has_sort pipeline then
    (add_to_first_sort pipeline (pascal attr) 1,
      add_to_first_sort pipeline (pascal attr) 1)
  else (pipeline ++ [.sort_stage [(pascal attr, 1)]], pipeline)

/-- sort_by_descending of temporal_mongo_query.py, direction -1. -/
def sort_by_descending (pascal : String → String) (pipeline : List QueryStage)
    (attr : String) : List QueryStage × List QueryStage :=
  if has_sort pipeline then
    (add_to_first_sort pipeline (pascal attr) (-1),
      add_to_first_sort pipeline (pascal attr) (-1))
  else (pipeline ++ [.sort_stage [(pascal attr, -1)]], pipeline)

/-- where of temporal_mongo_query.py: rejected once a sort stage exists,
otherwise the predicate keys are pascal cased and one match stage is
appended to the shallow copy, the receiver pipeline staying untouched.  On
the string valued predicates modelled here __fix_predicate_query is the
passthrough branch of __process_element.  The result pairs the new pipeline
with the receiver pipeline after the call; the message keeps the missing
space of the source f-string. -/
def where_query (pascal : String → String) (pipeline : List QueryStage)
    (predicate : List (String × String)) :
    Except String (List QueryStage × List QueryStage) :=
  if has_sort pipeline then
    .error "All where(...) clauses of the query must precedesort_by(...) or sort_by_descending(...) clauses of the same query."
  else
    .ok (pipeline ++
      [.match_stage (predicate.map (fun kv => (pascal kv.1, kv.2)))], pipeline)

/-- A concrete builder pipeline that already carries a sort stage on field A. -/
def sorted_pipeline_sample : List QueryStage :=
  [.match_stage [("_t", "BaseSample")], .sort_stage [("A", 1)]]

/-- Claim C9, counterexample: after q2 = q.sort_by(B) on a builder whose
pipeline already has a sort stage on A, the receiver pipeline shows the
field B inside its sort stage: the stage dict is shared with the shallow
copy and was mutated, so the original builder did not keep only its
previous sort fields. -/
theorem sort_by_mutates_receiver :
    (sort_by (fun s => s) sorted_pipeline_sample "B").2 =
      [.match_stage [("_t", "BaseSample")], .sort_stage [("A", 1), ("B", 1)]]
    ∧ (sort_by (fun s => s) sorted_pipeline_sample "B").2 ≠ sorted_pipeline_sample :=
  ⟨rfl, by decide⟩

/-- Lemma: the sorts[attr] assignment reaches exactly the first sort stage. -/
theorem add_to_first_sort_fields :
    ∀ (pipeline : List QueryStage) (k : String) (v : Int) (fields : List (String × Int)),
      first_sort_fields pipeline = some fields →
      first_sort_fields (add_to_first_sort pipeline k v) = some (dict_set fields k v) := by
  intro pipeline
  induction pipeline with
  | nil =>
    intro k v fields h
    exact absurd h (by simp [first_sort_fields])
  | cons stage rest ih =>
    intro k v fields h
    cases stage with
    | sort_stage f =>
      unfold first_sort_fields at h
      rw [Option.some.injEq] at h
      rw [← h]
      rfl
    | match_stage p =>
      unfold first_sort_fields at h
      unfold add_to_first_sort first_sort_fields
      exact ih k v fields h

/-- Claim C9, amended: where appends one match stage and sort_by and
sort_by_descending append one sort stage, all leaving the receiver pipeline
unchanged, as long as no sort stage exists yet; but once the builder has a
sort stage, sort_by merges the field into the shared stage dict, so the
receiver pipeline is the same mutated pipeline as the returned one and its
first sort stage gains the new field instead of keeping only its previous
fields. -/
theorem query_builder_frame (pascal : String → String) (pipeline : List QueryStage)
    (attr : String) (predicate : List (String × String)) :
    (has_sort pipeline = false →
      where_query pascal pipeline predicate =
        .ok (pipeline ++
          [.match_stage (predicate.map (fun kv => (pascal kv.1, kv.2)))], pipeline)
      ∧ sort_by pascal pipeline attr =
          (pipeline ++ [.sort_stage [(pascal attr, 1)]], pipeline)
      ∧ sort_by_descending pascal pipeline attr =
          (pipeline ++ [.sort_stage [(pascal attr, -1)]], pipeline))
    ∧ (has_sort pipeline = true →
      (sort_by pascal pipeline attr).2 = (sort_by pascal pipeline attr).1
      ∧ ∀ fields, first_sort_fields pipeline = some fields →
          fields.any (fun p => p.1 == pascal attr) = false →
          first_sort_fields (sort_by pascal pipeline attr).2 =
            some (fields ++ [(pascal attr, 1)])) := by
  constructor
  · intro h
    refine ⟨?_, ?_, ?_⟩
    · unfold where_query
      rw [h]
      rfl
    · unfold sort_by
      rw [h]
      rfl
    · unfold sort_by_descending
      rw [h]
      rfl
  · intro h
    constructor
    · unfold sort_by
      rw [h]
      rfl
    · intro fields hfirst hnew
      have hmut : (sort_by pascal pipeline attr).2 =
          add_to_first_sort pipeline (pascal attr) 1 := by
        unfold sort_by
        rw [h]
        rfl
      rw [hmut, add_to_first_sort_fields pipeline (pascal attr) 1 fields hfirst]
      unfold dict_set
      rw [hnew]
      rfl

/-- Witness for query_builder_frame: on the empty pipeline where appends its
match stage leaving the receiver empty, and on the sorted sample pipeline
the receiver sort stage gains field B after sort_by. -/
theorem query_builder_frame_sample :
    where_query (fun s => s) [] [("RecordId", "B")] =
      .ok ([.match_stage [("RecordId", "B")]], [])
    ∧ first_sort_fields (sort_by (fun s => s) sorted_pipeline_sample "B").2 =
        some [("A", 1), ("B", 1)] :=
  ⟨((query_builder_frame (fun s => s) [] "B" [("RecordId", "B")]).1 rfl).1,
    ((query_builder_frame (fun s => s) sorted_pipeline_sample "B" []).2 rfl).2
      [("A", 1)] rfl rfl⟩

end DataCentric
